import Mathlib

set_option linter.unusedVariables false

/-!
# Verification of the inventory-intelligence price-resolution pipeline

Shallow embedding of the core of the repository (files
`inventory_analyzer.py`, `product_search_enhancer.py`) in Lean 4, together
with theorems settling the specification claims.

Modelling conventions:
* Python `float` values that only ever flow through comparisons with the
  constants used by the code (0, 0.3, 60, 75) are modelled as `ℚ`; at those
  comparisons the double-precision result agrees with the exact rational one.
* Python strings are Lean `String`s; `str.lower()` is modelled on the ASCII
  range (every string the claims touch is ASCII).
* `requests` responses are supplied by an `Env` record: for each identifier
  (resp. query) the environment says whether the transport raised, the status
  code, whether `.json()` raised, and the parsed payload.  `time.time()` is
  modelled as a stream `Env.timeStream` consumed via a counter in the state.
* Side effects (network calls, `time.sleep`) are returned as an explicit
  trace (`List Eff`) so that claims about rate-limit delays and "no second
  network request" are statable.
-/

/-! ## Basic character and string utilities (models of Python str methods) -/

/-- Python whitespace test used by `str.strip`, `str.split`, and `\s`. -/
def isWs (c : Char) : Bool :=
  c = ' ' ∨ c = '\t' ∨ c = '\n' ∨ c = '\r' ∨ c = '\x0b' ∨ c = '\x0c'

/-- Model of Python `str.strip()` (no arguments) on a character list. -/
def pyStripChars (l : List Char) : List Char :=
  ((l.dropWhile isWs).reverse.dropWhile isWs).reverse

/-- Model of Python `str.strip()` on a `String`. -/
def pyStrip (s : String) : String :=
  String.mk (pyStripChars s.data)

/-- Model of Python `str.rstrip(chars)`: removes every trailing character
belonging to `cs` (a character *set*, not a suffix). -/
def pyRstrip (s : String) (cs : List Char) : String :=
  String.mk (s.data.reverse.dropWhile (fun c => c ∈ cs)).reverse

/-- ASCII model of Python `str.lower()`. -/
def pyLower (l : List Char) : List Char :=
  l.map Char.toLower

/-- Case-insensitive "the pattern `p` is an initial segment of `l`"
(model of matching a literal alternative under `re.IGNORECASE`). -/
def ciStartsWith : List Char → List Char → Bool
  | [], _ => true
  | _ :: _, [] => false
  | p :: ps, c :: cs => (p.toLower = c.toLower) && ciStartsWith ps cs

/-- Model of argumentless Python `str.split()`: split on whitespace runs,
producing no empty words. -/
def wordsAux : List Char → List Char → List String
  | [], acc => if acc.isEmpty then [] else [String.mk acc.reverse]
  | c :: cs, acc =>
    if isWs c then
      if acc.isEmpty then wordsAux cs []
      else String.mk acc.reverse :: wordsAux cs []
    else wordsAux cs (c :: acc)

/-- The word list of a string (Python `s.split()`). -/
def wordsOf (l : List Char) : List String :=
  wordsAux l []

/-- Numeric value of a digit string (most significant first). -/
def natOfDigits (l : List Char) : Nat :=
  l.foldl (fun n c => n * 10 + (c.toNat - '0'.toNat)) 0

/-! ## Price String Normalizer (`InventoryAnalyzer.clean_price`)

`clean_price` removes `$` and `,` and feeds the remainder to Python's
`float`.  `pyFloat` below models `float(·)` on sign-and-decimal literals with
an optional exponent; the special literals (`nan`, `inf`) and underscore
separators are outside the modelled grammar and are treated as unparseable. -/

/-- Parse an unsigned decimal literal `digits [. digits] [e/E [sign] digits]`
into a numerator/denominator pair of naturals; `none` when the text is not
entirely such a literal. -/
def parseUnsigned (l : List Char) : Option (Nat × Nat) :=
  let d1 := l.takeWhile Char.isDigit
  let r1 := l.dropWhile Char.isDigit
  let frac : List Char × List Char :=
    match r1 with
    | '.' :: t => (t.takeWhile Char.isDigit, t.dropWhile Char.isDigit)
    | _ => ([], r1)
  let d2 := frac.1
  let r2 := frac.2
  if d1.isEmpty ∧ d2.isEmpty then none
  else
    let mantNum := natOfDigits (d1 ++ d2)
    let mantDen := 10 ^ d2.length
    match r2 with
    | [] => some (mantNum, mantDen)
    | e :: t =>
      if e = 'e' ∨ e = 'E' then
        let sgn : Bool × List Char :=
          match t with
          | '-' :: t2 => (true, t2)
          | '+' :: t2 => (false, t2)
          | _ => (false, t)
        let d3 := sgn.2.takeWhile Char.isDigit
        let r3 := sgn.2.dropWhile Char.isDigit
        if d3.isEmpty ∨ ¬ r3.isEmpty then none
        else some (if sgn.1 then (mantNum, mantDen * 10 ^ natOfDigits d3)
                   else (mantNum * 10 ^ natOfDigits d3, mantDen))
      else none

/-- Model of Python `float(s)` restricted to decimal literals: surrounding
whitespace is ignored, an optional sign precedes the literal, and the
magnitude is the parsed numerator over the parsed denominator. -/
def pyFloat (s : String) : Option ℚ :=
  match pyStripChars s.data with
  | [] => none
  | '-' :: rest => (parseUnsigned rest).map (fun p => -(mkRat p.1 p.2))
  | '+' :: rest => (parseUnsigned rest).map (fun p => mkRat p.1 p.2)
  | l => (parseUnsigned l).map (fun p => mkRat p.1 p.2)

/-- `re.sub(r'[$,]', '', s)`: drop every dollar sign and comma. -/
def stripMoney (s : String) : String :=
  String.mk (s.data.filter (fun c => c ≠ '$' ∧ c ≠ ','))

/-- Embedding of `InventoryAnalyzer.clean_price` (inventory_analyzer.py
lines 47-56).  The absent/NaN spreadsheet cell is `none`. -/
def clean_price (price : Option String) : ℚ :=
  match price with
  | none => 0
  | some s =>
    if s = "" then 0
    else
      match pyFloat (stripMoney s) with
      | some q => q
      | none => 0

/-! ## Identifier Normalizer (inline in `analyze_inventory`, lines 219-221)

```python
upc = str(row['ITEM UPC']).strip() if pd.notna(row['ITEM UPC']) else None
if upc and upc != 'nan':
    upc = upc.rstrip('.0')
```
-/

/-- Embedding of the identifier normalization performed by
`analyze_inventory`; `none` models an absent (NaN) `ITEM UPC` cell. -/
def normalize_item_upc (raw : Option String) : Option String :=
  match raw with
  | none => none
  | some r =>
    let t := pyStrip r
    if t ≠ "" ∧ t ≠ "nan" then some (pyRstrip t ['.', '0']) else some t

/-! ## Discount Calculator & Categorizer (lines 170-185) -/

/-- Embedding of `InventoryAnalyzer.calculate_discount_percentage`. -/
def calculate_discount_percentage (supplier_price retail_price : ℚ) : ℚ :=
  if retail_price ≤ 0 then 0
  else (retail_price - supplier_price) / retail_price * 100

/-- The four category labels produced by `categorize_price`. -/
inductive PriceCategory where
  | goodPrice
  | okayPrice
  | badPrice
  | noPriceFound
deriving DecidableEq

/-- Embedding of `InventoryAnalyzer.categorize_price`. -/
def categorize_price (discount_percentage retail_price : ℚ) : PriceCategory :=
  if retail_price ≤ 0 then PriceCategory.noPriceFound
  else if discount_percentage ≥ 75 then PriceCategory.goodPrice
  else if discount_percentage ≥ 60 then PriceCategory.okayPrice
  else PriceCategory.badPrice

/-! ## Fuzzy Text Search Fallback (`product_search_enhancer.py`)

`clean_product_name` applies four `re.sub` passes.  Each pattern starts with
`\s+` followed by text that begins with a non-whitespace character, so a match
can only start at a whitespace character and the greedy scan is deterministic;
the models below scan left to right exactly as `re.sub` does.  Product
descriptions are single-line CSV fields, so the greedy `.*` in the first two
patterns is modelled as running to the end of the text. -/

/-- One of the literal alternatives `BEST BY|BB|EXP|EXPIRES` matches here,
case-insensitively. -/
def markerHere (l : List Char) : Bool :=
  ciStartsWith "BEST BY".data l || ciStartsWith "BB".data l ||
  ciStartsWith "EXP".data l || ciStartsWith "EXPIRES".data l

/-- The pattern `\d+/\d+/\d+` matches here. -/
def dateHere (l : List Char) : Bool :=
  if (l.takeWhile Char.isDigit).isEmpty then false
  else
    match l.dropWhile Char.isDigit with
    | '/' :: t =>
      if (t.takeWhile Char.isDigit).isEmpty then false
      else
        match t.dropWhile Char.isDigit with
        | '/' :: u => ¬ (u.takeWhile Char.isDigit).isEmpty
        | _ => false
    | _ => false

/-- Shared shape of `re.sub(r'\s+<body>.*', '', s)` for a body recognised by
`p`: at the first whitespace run whose end satisfies `p`, delete from the run
to the end of the (single-line) text. -/
def subToEnd (p : List Char → Bool) : List Char → List Char
  | [] => []
  | c :: cs =>
    if isWs c ∧ p ((c :: cs).dropWhile isWs) then []
    else c :: subToEnd p cs

/-- Model of `re.sub(r'\s+(BEST BY|BB|EXP|EXPIRES).*', '', s, re.IGNORECASE)`. -/
def subMarkers (l : List Char) : List Char :=
  subToEnd markerHere l

/-- Model of `re.sub(r'\s+\d+/\d+/\d+.*', '', s)` (date removal). -/
def subDate (l : List Char) : List Char :=
  subToEnd dateHere l

/-- Match `\d+CT\s*` (case-insensitive) at the head of `l`; on success return
the remainder of the string after the match. -/
def countMatch (l : List Char) : Option (List Char) :=
  if (l.takeWhile Char.isDigit).isEmpty then none
  else
    match l.dropWhile Char.isDigit with
    | c1 :: c2 :: t =>
      if c1.toLower = 'c' ∧ c2.toLower = 't' then some (t.dropWhile isWs) else none
    | _ => none

/-- The part of the text a greedy `(\.\d+)?` leaves behind: if a dot followed
by at least one digit is present it is consumed, otherwise nothing is. -/
def ozTail (r : List Char) : List Char :=
  match r with
  | c :: t =>
    if c = '.' ∧ ¬ (t.takeWhile Char.isDigit).isEmpty then t.dropWhile Char.isDigit
    else r
  | [] => r

/-- Match `\d+(\.\d+)?oz\s*` (case-insensitive) at the head of `l`; on success
return the remainder after the match. -/
def ozMatch (l : List Char) : Option (List Char) :=
  if (l.takeWhile Char.isDigit).isEmpty then none
  else
    match ozTail (l.dropWhile Char.isDigit) with
    | c1 :: c2 :: t =>
      if c1.toLower = 'o' ∧ c2.toLower = 'z' then some (t.dropWhile isWs) else none
    | _ => none

/-- Shared shape of `re.sub(r'\s+<token>', ' ', s)` for a token matcher `m`:
at each whitespace run, if `m` matches after the run, the whole match is
replaced by one space and scanning resumes after it.  Structural recursion is
obtained through a fuel argument; `subTokF_fuel` below shows the result does
not depend on the fuel once it is at least the length of the text, so the
entry points pass `l.length`. -/
def subTokF (m : List Char → Option (List Char)) : Nat → List Char → List Char
  | 0, l => l
  | _ + 1, [] => []
  | fuel + 1, c :: cs =>
    if isWs c then
      match m ((c :: cs).dropWhile isWs) with
      | some rest => ' ' :: subTokF m fuel rest
      | none => c :: subTokF m fuel cs
    else c :: subTokF m fuel cs

/-- Model of `re.sub(r'\s+\d+CT\s*', ' ', s, re.IGNORECASE)` (count-token
removal). -/
def subCount (l : List Char) : List Char :=
  subTokF countMatch l.length l

/-- Model of `re.sub(r'\s+\d+(\.\d+)?oz\s*', ' ', s, re.IGNORECASE)`
(unit-size token removal). -/
def subOz (l : List Char) : List Char :=
  subTokF ozMatch l.length l

/-- `re.sub(r'\s+', ' ', s)`: collapse each whitespace run into one space. -/
def collapseWs : List Char → List Char
  | [] => []
  | [c] => if isWs c then [' '] else [c]
  | c :: c2 :: cs =>
    if isWs c then
      if isWs c2 then collapseWs (c2 :: cs)
      else ' ' :: collapseWs (c2 :: cs)
    else c :: collapseWs (c2 :: cs)

/-- Embedding of `ProductSearchEnhancer.clean_product_name`
(product_search_enhancer.py lines 29-43). -/
def clean_product_name (product_name : String) : String :=
  if product_name = "" then ""
  else
    String.mk
      (((pyStripChars (collapseWs (subOz (subCount (subDate
          (subMarkers product_name.data))))))).take 100)

/-! ## External collaborators, effects, and state

The two HTTP clients are driven by an environment `Env` that fixes, for every
identifier (resp. query), what the remote service does: transport exception,
status code, whether `.json()` raises, and the parsed payload.  `time.time()`
is a stream of clock readings consumed through a counter.  Every network
attempt and every `time.sleep` is recorded in an effect trace. -/

/-- Observable side effects of the embedded code. -/
inductive Eff where
  | upcCall
  | walmartCall
  | searchCall
  | sleep (seconds : ℚ)
deriving DecidableEq

/-- One retailer offer inside a code-lookup (UPCitemdb) product record:
`{domain, price, link, merchant}` (the merchant field is only logged, never
branched on, and is omitted).  Absent dictionary keys are `none`. -/
structure Offer where
  domain : Option String
  price : Option ℚ
  link : Option String
deriving DecidableEq

/-- The product record `data['items'][0]` of a code-lookup response;
`offers` is `product_info.get('offers', [])`. -/
structure ProductInfo where
  offers : List Offer
deriving DecidableEq

/-- Outcome of one `requests.get` to the code-lookup service: the transport
raised, or a response arrived with a status code, a flag saying whether
`.json()` raises when called, and the parsed `items` list. -/
inductive UpcResponse where
  | exn
  | resp (status : Nat) (jsonExn : Bool) (items : List ProductInfo)
deriving DecidableEq

/-- An item returned by the direct Walmart catalog lookup
(`walmart_auth.lookup_product`). -/
structure WalmartItem where
  salePrice : Option ℚ
  itemId : Option Nat
deriving DecidableEq

/-- An item returned by the Walmart text-search endpoint:
`salePrice = item.get('salePrice', 0)`, `name = item.get('name', '')`,
`itemId = item.get('itemId')`. -/
structure SearchItem where
  salePrice : Option ℚ
  name : String
  itemId : Option Nat
deriving DecidableEq

/-- Outcome of one `requests.get` to the Walmart search endpoint. -/
inductive SearchResponse where
  | exn
  | resp (status : Nat) (jsonExn : Bool) (items : List SearchItem)
deriving DecidableEq

/-- The fixed behaviour of all collaborators during one run.
`walmartItem` models `walmart_auth.lookup_product`, which catches every
exception internally and returns `None` on any failure, so it is total;
`hasWalmartApi` says whether `self.walmart_api` is non-`None` (the same
object is handed to the `ProductSearchEnhancer` as `walmart_auth`). -/
structure Env where
  upcResp : String → UpcResponse
  hasWalmartApi : Bool
  walmartItem : String → Option WalmartItem
  searchResp : String → SearchResponse
  timeStream : Nat → ℚ

/-- The per-identifier cache `self.upc_cache` (a Python dict: a stored value
may itself be `None`, the cached negative result). -/
abbrev UpcCache : Type := List (String × Option ProductInfo)

/-- `time.sleep(0.1)` after a fallthrough code-lookup call. -/
def upcSleep : ℚ := mkRat 1 10

/-- Embedding of `InventoryAnalyzer.lookup_upc_product_info`
(inventory_analyzer.py lines 58-89).  Returns the result, the updated cache,
and the effect trace of this call.  An empty identifier models the
`not upc or pd.isna(upc)` early return. -/
def lookup_upc_product_info (env : Env) (cache : UpcCache) (upc : String) :
    Option ProductInfo × UpcCache × List Eff :=
  if upc = "" then (none, cache, [])
  else
    match List.lookup upc cache with
    | some v => (v, cache, [])
    | none =>
      match env.upcResp upc with
      | UpcResponse.exn => (none, (upc, none) :: cache, [Eff.upcCall])
      | UpcResponse.resp status jsonBad items =>
        if status = 200 then
          if jsonBad then (none, (upc, none) :: cache, [Eff.upcCall])
          else
            match items with
            | info :: _ => (some info, (upc, some info) :: cache, [Eff.upcCall])
            | [] => (none, (upc, none) :: cache, [Eff.upcCall, Eff.sleep upcSleep])
        else (none, (upc, none) :: cache, [Eff.upcCall, Eff.sleep upcSleep])

/-! ### `ProductSearchEnhancer` state and search -/

/-- Mutable state of a `ProductSearchEnhancer`: the search cache, the
`last_walmart_call` timestamp, and the clock-stream cursor. -/
structure SearchState where
  searchCache : List (String × (ℚ × String))
  lastWalmartCall : ℚ
  timeIdx : Nat
deriving DecidableEq

/-- `self.walmart_delay = 0.2` (5 requests per second max). -/
def walmartDelay : ℚ := mkRat 1 5

/-- The similarity threshold `0.3` (at least 30 percent word overlap). -/
def scoreThreshold : ℚ := mkRat 3 10

/-- URL built for a search candidate; `itemId` is Python-truthy only when
present and nonzero. -/
def itemUrl (itemId : Option Nat) : String :=
  match itemId with
  | some i =>
    if i = 0 then "https://walmart.com" else "https://walmart.com/ip/" ++ toString i
  | none => "https://walmart.com"

/-- Word-overlap score of a candidate name (already lowercased) against the
cleaned query's word set: `|intersection| / max(|query word set|, 1)`. -/
def overlapScore (queryWords : List String) (name : String) : ℚ :=
  let resultWords := wordsOf name.data
  mkRat (List.length (queryWords.filter (fun w => resultWords.contains w)))
        (max queryWords.length 1)

/-- The candidate-selection loop of `search_walmart_products` (lines 89-107):
scan the items in order; a candidate with positive price whose score strictly
exceeds both the current best score and the threshold becomes the new best. -/
def bestLoop (queryWords : List String) :
    List SearchItem → Option (ℚ × String) → ℚ → Option (ℚ × String)
  | [], best, _ => best
  | it :: rest, best, bestScore =>
    if 0 < it.salePrice.getD 0 then
      let score := overlapScore queryWords (String.mk (pyLower it.name.data))
      if score > bestScore ∧ score > scoreThreshold then
        bestLoop queryWords rest (some (it.salePrice.getD 0, itemUrl it.itemId)) score
      else bestLoop queryWords rest best bestScore
    else bestLoop queryWords rest best bestScore

/-- Embedding of `ProductSearchEnhancer.search_walmart_products`
(product_search_enhancer.py lines 47-123).  `auth` is the truthiness of
`self.walmart_auth`.  The rate-limit wait is computed before the cache check,
`last_walmart_call` is updated only when `requests.get` returns, and every
completed attempt caches a positive or negative result under the key
`"walmart_" + cleaned`. -/
def search_walmart_products (env : Env) (auth : Bool) (st : SearchState)
    (product_name : String) : (ℚ × String) × SearchState × List Eff :=
  if auth = false then (((0 : ℚ), ""), st, [])
  else
    let now := env.timeStream st.timeIdx
    let st1 : SearchState := { st with timeIdx := st.timeIdx + 1 }
    let waitEff : List Eff :=
      if now - st.lastWalmartCall < walmartDelay then
        [Eff.sleep (walmartDelay - (now - st.lastWalmartCall))]
      else []
    let cleaned := clean_product_name product_name
    let key := "walmart_" ++ cleaned
    match List.lookup key st1.searchCache with
    | some v => (v, st1, waitEff)
    | none =>
      match env.searchResp cleaned with
      | SearchResponse.exn =>
        (((0 : ℚ), ""),
          { st1 with searchCache := (key, ((0 : ℚ), "")) :: st1.searchCache },
          waitEff ++ [Eff.searchCall])
      | SearchResponse.resp status jsonBad items =>
        let st2 : SearchState :=
          { st1 with timeIdx := st1.timeIdx + 1,
                     lastWalmartCall := env.timeStream st1.timeIdx }
        if status = 200 then
          if jsonBad then
            (((0 : ℚ), ""),
              { st2 with searchCache := (key, ((0 : ℚ), "")) :: st2.searchCache },
              waitEff ++ [Eff.searchCall])
          else
            let queryWords := (wordsOf (pyLower cleaned.data)).dedup
            match bestLoop queryWords items none 0 with
            | some bm =>
              (bm, { st2 with searchCache := (key, bm) :: st2.searchCache },
                waitEff ++ [Eff.searchCall])
            | none =>
              (((0 : ℚ), ""),
                { st2 with searchCache := (key, ((0 : ℚ), "")) :: st2.searchCache },
                waitEff ++ [Eff.searchCall])
        else
          (((0 : ℚ), ""),
            { st2 with searchCache := (key, ((0 : ℚ), "")) :: st2.searchCache },
            waitEff ++ [Eff.searchCall])

/-- Embedding of `ProductSearchEnhancer.search_product_price`
(product_search_enhancer.py lines 125-141). -/
def search_product_price (env : Env) (auth : Bool) (st : SearchState)
    (product_name : String) : (ℚ × String) × SearchState × List Eff :=
  if product_name = "" ∨ pyStrip product_name = "" then (((0 : ℚ), ""), st, [])
  else
    let r := search_walmart_products env auth st product_name
    if 0 < r.1.1 then r
    else (((0 : ℚ), ""), r.2.1, r.2.2)

/-! ## Price Resolution Pipeline (`InventoryAnalyzer.get_retail_price`,
inventory_analyzer.py lines 91-168) -/

/-- Which source supplied the usable (positive) price of a resolution; the
spec's `ResolvedPrice` source kind.  A partial result (a browsable link with
price 0) and a full miss both carry `Source.none`: no source yielded a usable
price. -/
inductive Source where
  | codeLookup
  | retailerDirect
  | retailerSearch
  | none
deriving DecidableEq

/-- `product_info.get('offers', [])` guarded by `if product_info:`. -/
def offersOf (pi : Option ProductInfo) : List Offer :=
  match pi with
  | some info => info.offers
  | none => []

/-- First loop (lines 106-111): the first offer whose domain is
`walmart.com` with positive price; the link default embeds the identifier. -/
def pickWalmartOffer (u : String) : List Offer → Option (ℚ × String)
  | [] => none
  | o :: os =>
    if o.domain = some "walmart.com" ∧ 0 < o.price.getD 0 then
      some (o.price.getD 0, o.link.getD ("https://walmart.com/upc/" ++ u))
    else pickWalmartOffer u os

/-- Second loop (lines 114-120): the first offer from any retailer with
positive price. -/
def pickAnyOffer : List Offer → Option (ℚ × String)
  | [] => none
  | o :: os =>
    if 0 < o.price.getD 0 then some (o.price.getD 0, o.link.getD "")
    else pickAnyOffer os

/-- Python truthiness of `offer.get('link')`. -/
def linkTruthy (o : Offer) : Bool :=
  match o.link with
  | some l => l ≠ ""
  | none => false

/-- Third loop (lines 149-152): the first Walmart offer with a truthy link. -/
def pickWalmartLink : List Offer → Option String
  | [] => none
  | o :: os =>
    if o.domain = some "walmart.com" ∧ linkTruthy o then some (o.link.getD "")
    else pickWalmartLink os

/-- Fourth loop (lines 154-158): the first offer with a truthy link. -/
def pickAnyLink : List Offer → Option String
  | [] => none
  | o :: os => if linkTruthy o then some (o.link.getD "") else pickAnyLink os

/-- URL built from a direct-lookup item (lines 130-134); `item_id` is
Python-truthy only when present and nonzero. -/
def walmartItemUrl (item : WalmartItem) (u : String) : String :=
  match item.itemId with
  | some i =>
    if i = 0 then "https://walmart.com/search?q=" ++ u
    else "https://walmart.com/ip/" ++ toString i
  | none => "https://walmart.com/search?q=" ++ u

/-- The direct Walmart catalog attempt (lines 123-140), performed only when
`self.walmart_api` exists.  `lookup_product` catches every exception
internally, so the surrounding `try/except` in the pipeline never fires. -/
def directLookup (env : Env) (u : String) : Option (ℚ × String) × List Eff :=
  if env.hasWalmartApi then
    (match env.walmartItem u with
     | some item =>
       if 0 < item.salePrice.getD 0 then
         some (item.salePrice.getD 0, walmartItemUrl item u)
       else none
     | none => none,
     [Eff.walmartCall])
  else (none, [])

/-- The mutable state of an `InventoryAnalyzer` seen by the pipeline. -/
structure PipeState where
  upcCache : UpcCache
  search : SearchState
deriving DecidableEq

/-- Embedding of `InventoryAnalyzer.get_retail_price` (lines 91-168).
Returns `((price, url, source), state, effects)`: the Python function returns
the first two components of the first tuple; `source` instruments which
return site supplied a usable price (`Source.none` when price is 0).  The
re-lookup at lines 143-144 is performed exactly when `product_info` is falsy
(the name is always bound at line 101 once an identifier is present). -/
def get_retail_price (env : Env) (st : PipeState) (product_name : String)
    (upc : Option String) : (ℚ × String × Source) × PipeState × List Eff :=
  match upc with
  | Option.none => (((0 : ℚ), "", Source.none), st, [])
  | Option.some u =>
    if u = "" then (((0 : ℚ), "", Source.none), st, [])
    else
      let r1 := lookup_upc_product_info env st.upcCache u
      match pickWalmartOffer u (offersOf r1.1) with
      | some pu => ((pu.1, pu.2, Source.codeLookup), ⟨r1.2.1, st.search⟩, r1.2.2)
      | none =>
        match pickAnyOffer (offersOf r1.1) with
        | some pu => ((pu.1, pu.2, Source.codeLookup), ⟨r1.2.1, st.search⟩, r1.2.2)
        | none =>
          let d := directLookup env u
          match d.1 with
          | some pu =>
            ((pu.1, pu.2, Source.retailerDirect), ⟨r1.2.1, st.search⟩, r1.2.2 ++ d.2)
          | none =>
            let r2 := if r1.1.isNone then lookup_upc_product_info env r1.2.1 u
                      else (r1.1, r1.2.1, [])
            match pickWalmartLink (offersOf r2.1) with
            | some l =>
              (((0 : ℚ), l, Source.none), ⟨r2.2.1, st.search⟩, r1.2.2 ++ d.2 ++ r2.2.2)
            | none =>
              match pickAnyLink (offersOf r2.1) with
              | some l =>
                (((0 : ℚ), l, Source.none), ⟨r2.2.1, st.search⟩, r1.2.2 ++ d.2 ++ r2.2.2)
              | none =>
                let rs := search_product_price env env.hasWalmartApi st.search product_name
                if 0 < rs.1.1 then
                  ((rs.1.1, rs.1.2, Source.retailerSearch), ⟨r2.2.1, rs.2.1⟩,
                    r1.2.2 ++ d.2 ++ r2.2.2 ++ rs.2.2)
                else
                  (((0 : ℚ), "", Source.none), ⟨r2.2.1, rs.2.1⟩,
                    r1.2.2 ++ d.2 ++ r2.2.2 ++ rs.2.2)

/-- The response kinds §4.3 calls "not found": a transport exception, a
non-200 status, a response whose `.json()` raises, or a 200 response with no
matching items. -/
def upcNotFound : UpcResponse → Prop
  | UpcResponse.exn => True
  | UpcResponse.resp s je its => s ≠ 200 ∨ je = true ∨ its = []

/-! ## Concrete collaborator behaviours used by witnesses and counterexamples -/

/-- Search candidate "A B C" with price 1, first in the service's order. -/
def itemABC : SearchItem := ⟨some 1, "A B C", some 101⟩

/-- Search candidate "A B" with price 2, second in the service's order. -/
def itemAB : SearchItem := ⟨some 2, "A B", some 102⟩

/-- A search state with an empty cache, `last_walmart_call = 0`, clock
cursor 0. -/
def searchState0 : SearchState := ⟨[], 0, 0⟩

/-- A pipeline state with empty caches. -/
def pipeState0 : PipeState := ⟨[], searchState0⟩

/-- Environment where every code lookup answers 404 and no other
collaborator is available. -/
def envMiss : Env :=
  { upcResp := fun _ => UpcResponse.resp 404 false []
    hasWalmartApi := false
    walmartItem := fun _ => none
    searchResp := fun _ => SearchResponse.exn
    timeStream := fun _ => 0 }

/-- Environment where the transport to the code-lookup service raises. -/
def envExn : Env := { envMiss with upcResp := fun _ => UpcResponse.exn }

/-- A product record with a single priced Walmart offer. -/
def infoWalmart : ProductInfo :=
  ⟨[⟨some "walmart.com", some 5, some "https://walmart.com/ip/7"⟩]⟩

/-- Environment where every code lookup succeeds with `infoWalmart`. -/
def envFound : Env :=
  { envMiss with upcResp := fun _ => UpcResponse.resp 200 false [infoWalmart] }

/-- Environment where the code lookup raises, the direct client is present
but finds nothing, and the text search on query "A B" returns the two
tie-break candidates. -/
def envTie : Env :=
  { upcResp := fun _ => UpcResponse.exn
    hasWalmartApi := true
    walmartItem := fun _ => none
    searchResp := fun q =>
      if q = "A B" then SearchResponse.resp 200 false [itemABC, itemAB]
      else SearchResponse.exn
    timeStream := fun _ => 0 }

/-- Like `envTie` but the code lookup answers 200 with no items, so only the
fuzzy search can produce a price. -/
def envFuzzyOnly : Env :=
  { envTie with upcResp := fun _ => UpcResponse.resp 200 false [] }

/-! # Theorems

First the infrastructure lemmas about the string utilities and the fueled
scanners, then one theorem per specification claim. -/

theorem length_dropWhile_le' (p : Char → Bool) (l : List Char) :
    (l.dropWhile p).length ≤ l.length := by
  induction l with
  | nil => simp [List.dropWhile]
  | cons c cs ih =>
    by_cases h : p c
    · simp only [List.dropWhile, h, List.length_cons]
      omega
    · simp [List.dropWhile, h]

theorem countMatch_length (l : List Char) :
    ∀ r, countMatch l = some r → r.length ≤ l.length := by
  intro r h
  unfold countMatch at h
  split at h
  · exact absurd h (by simp)
  · split at h
    next c1 c2 t heq =>
      split at h
      · have h1 : r = t.dropWhile isWs := by
          injection h with h2
          exact h2.symm
        have h2 := length_dropWhile_le' isWs t
        have h3 := length_dropWhile_le' Char.isDigit l
        rw [heq] at h3
        simp only [List.length_cons] at h3
        rw [h1]
        omega
      · exact absurd h (by simp)
    next heq _ => exact absurd h (by simp)

theorem ozTail_length (r : List Char) : (ozTail r).length ≤ r.length := by
  unfold ozTail
  split
  next c t =>
    split_ifs with h
    · have h1 := length_dropWhile_le' Char.isDigit t
      simp only [List.length_cons]
      omega
    · omega
  next => omega

theorem ozMatch_length (l : List Char) :
    ∀ r, ozMatch l = some r → r.length ≤ l.length := by
  intro r h
  unfold ozMatch at h
  split at h
  · exact absurd h (by simp)
  · have hoz : (ozTail (l.dropWhile Char.isDigit)).length ≤ l.length :=
      le_trans (ozTail_length _) (length_dropWhile_le' _ l)
    split at h
    next c1 c2 t heq =>
      split at h
      · have h1 : r = t.dropWhile isWs := by
          injection h with h2
          exact h2.symm
        have h2 := length_dropWhile_le' isWs t
        rw [heq] at hoz
        simp only [List.length_cons] at hoz
        rw [h1]
        omega
      · exact absurd h (by simp)
    next heq _ => exact absurd h (by simp)

theorem subTokF_fuel (m : List Char → Option (List Char))
    (hm : ∀ l r, m l = some r → r.length ≤ l.length) :
    ∀ f1 f2 l, l.length ≤ f1 → l.length ≤ f2 →
      subTokF m f1 l = subTokF m f2 l := by
  intro f1
  induction f1 with
  | zero =>
    intro f2 l h1 h2
    have hl : l = [] := List.length_eq_zero.mp (Nat.le_zero.mp h1)
    subst hl
    cases f2 <;> rfl
  | succ f ih =>
    intro f2 l h1 h2
    cases f2 with
    | zero =>
      have hl : l = [] := List.length_eq_zero.mp (Nat.le_zero.mp h2)
      subst hl
      rfl
    | succ f2 =>
      cases l with
      | nil => rfl
      | cons c cs =>
        simp only [List.length_cons] at h1 h2
        have hcs1 : cs.length ≤ f := by omega
        have hcs2 : cs.length ≤ f2 := by omega
        simp only [subTokF]
        by_cases hws : isWs c = true
        · simp only [hws, if_true]
          cases hr : m ((c :: cs).dropWhile isWs) with
          | none => exact congrArg (List.cons c) (ih f2 cs hcs1 hcs2)
          | some rest =>
            have hlen : rest.length ≤ cs.length := by
              have ha := hm _ _ hr
              have hb : ((c :: cs).dropWhile isWs).length ≤ cs.length := by
                simp only [List.dropWhile_cons, hws, if_true]
                exact length_dropWhile_le' isWs cs
              omega
            exact congrArg (List.cons ' ')
              (ih f2 rest (le_trans hlen hcs1) (le_trans hlen hcs2))
        · simp only [hws, if_false]
          exact congrArg (List.cons c) (ih f2 cs hcs1 hcs2)


/-- The fuel `l.length` passed by `subCount` is adequate: any larger fuel
computes the same result. -/
theorem subCount_fuel_adequate (f : Nat) (l : List Char) (hf : l.length ≤ f) :
    subTokF countMatch f l = subCount l :=
  subTokF_fuel countMatch countMatch_length f l.length l hf le_rfl

/-- The fuel `l.length` passed by `subOz` is adequate as well. -/
theorem subOz_fuel_adequate (f : Nat) (l : List Char) (hf : l.length ≤ f) :
    subTokF ozMatch f l = subOz l :=
  subTokF_fuel ozMatch ozMatch_length f l.length l hf le_rfl

/-! ## Lemmas about the code-lookup client -/

/-- A second invocation of `lookup_upc_product_info` on any identifier
returns exactly the result of the first invocation, leaves the cache
unchanged, and performs no effect (no network call, no sleep). -/
theorem lookup_upc_second (env : Env) (c : UpcCache) (u : String) :
    lookup_upc_product_info env (lookup_upc_product_info env c u).2.1 u =
      ((lookup_upc_product_info env c u).1,
       (lookup_upc_product_info env c u).2.1, []) := by
  by_cases hu : u = ""
  · subst hu
    simp [lookup_upc_product_info]
  · rcases h1 : List.lookup u c with _ | v
    · rcases h2 : env.upcResp u with _ | ⟨s, je, its⟩
      · simp [lookup_upc_product_info, hu, h1, h2, List.lookup]
      · by_cases hs : s = 200
        · subst hs
          cases je
          · cases its with
            | nil => simp [lookup_upc_product_info, hu, h1, h2, List.lookup]
            | cons i is => simp [lookup_upc_product_info, hu, h1, h2, List.lookup]
          · simp [lookup_upc_product_info, hu, h1, h2, List.lookup]
        · simp [lookup_upc_product_info, hu, h1, h2, hs, List.lookup]
    · simp [lookup_upc_product_info, hu, h1]

/-! ## Lemmas about the search client -/

/-- After any completed `search_walmart_products` call (with auth), the cache
maps the key of the cleaned query to exactly the returned result. -/
theorem search_caches_result (env : Env) (st : SearchState) (name : String) :
    List.lookup ("walmart_" ++ clean_product_name name)
      (search_walmart_products env true st name).2.1.searchCache =
      some (search_walmart_products env true st name).1 := by
  unfold search_walmart_products
  rw [if_neg (by simp)]
  rcases h1 : List.lookup ("walmart_" ++ clean_product_name name) st.searchCache with _ | v
  · rcases h2 : env.searchResp (clean_product_name name) with _ | ⟨s, je, its⟩
    · simp [h1, h2, List.lookup]
    · by_cases hs : s = 200
      · subst hs
        cases je
        · rcases h3 : bestLoop ((wordsOf (pyLower (clean_product_name name).data)).dedup)
              its none 0 with _ | bm
          · simp [h1, h2, h3, List.lookup]
          · simp [h1, h2, h3, List.lookup]
        · simp [h1, h2, List.lookup]
      · simp [h1, h2, hs, List.lookup]
  · simp [h1]

/-- When the key of the cleaned query is already cached,
`search_walmart_products` returns the cached value, only advances the clock
cursor, and performs at most the rate-limit sleep. -/
theorem search_cache_hit (env : Env) (st : SearchState) (name : String)
    (v : ℚ × String)
    (h : List.lookup ("walmart_" ++ clean_product_name name) st.searchCache = some v) :
    search_walmart_products env true st name =
      (v, { st with timeIdx := st.timeIdx + 1 },
        if env.timeStream st.timeIdx - st.lastWalmartCall < walmartDelay then
          [Eff.sleep (walmartDelay - (env.timeStream st.timeIdx - st.lastWalmartCall))]
        else []) := by
  unfold search_walmart_products
  rw [if_neg (by simp)]
  simp [h]

/-! ## Positivity of every price the pipeline accepts -/

theorem pickWalmartOffer_pos (u : String) (os : List Offer) (pu : ℚ × String)
    (h : pickWalmartOffer u os = some pu) : 0 < pu.1 := by
  induction os with
  | nil => exact absurd h (by simp [pickWalmartOffer])
  | cons o os ih =>
    unfold pickWalmartOffer at h
    split at h
    next hc =>
      injection h with h1
      rw [← h1]
      exact hc.2
    next => exact ih h

theorem pickAnyOffer_pos (os : List Offer) (pu : ℚ × String)
    (h : pickAnyOffer os = some pu) : 0 < pu.1 := by
  induction os with
  | nil => exact absurd h (by simp [pickAnyOffer])
  | cons o os ih =>
    unfold pickAnyOffer at h
    split at h
    next hc =>
      injection h with h1
      rw [← h1]
      exact hc
    next => exact ih h

theorem directLookup_pos (env : Env) (u : String) (pu : ℚ × String)
    (h : (directLookup env u).1 = some pu) : 0 < pu.1 := by
  unfold directLookup at h
  split at h
  · simp only at h
    split at h
    next item =>
      split at h
      next hc =>
        injection h with h1
        rw [← h1]
        exact hc
      next => exact absurd h (by simp)
    next => exact absurd h (by simp)
  · exact absurd h (by simp)

/-! ## Lemmas about the price-string parser -/

theorem pyStripChars_subset (c : Char) (l : List Char)
    (h : c ∈ pyStripChars l) : c ∈ l := by
  unfold pyStripChars at h
  rw [List.mem_reverse] at h
  have h2 := (List.dropWhile_sublist (l := (l.dropWhile isWs).reverse) isWs).subset h
  rw [List.mem_reverse] at h2
  exact (List.dropWhile_sublist (l := l) isWs).subset h2

theorem pyFloat_nonneg (s : String) (q : ℚ) (hm : '-' ∉ s.data)
    (h : pyFloat s = some q) : 0 ≤ q := by
  unfold pyFloat at h
  split at h
  · exact absurd h (by simp)
  case h_2 rest heq =>
    exfalso
    exact hm (pyStripChars_subset _ _ (by rw [heq]; exact List.mem_cons_self _ _))
  case h_3 rest heq =>
    rw [Option.map_eq_some'] at h
    obtain ⟨p, _, hq⟩ := h
    rw [← hq]
    exact Rat.mkRat_nonneg (Int.ofNat_nonneg _) _
  case h_4 =>
    rw [Option.map_eq_some'] at h
    obtain ⟨p, _, hq⟩ := h
    rw [← hq]
    exact Rat.mkRat_nonneg (Int.ofNat_nonneg _) _

/-! ## Claim theorems -/

/-- Claim C3: for every identifier, the code-lookup client never raises (its
embedding is a total function); a non-200 response, a 200 response with no
matching items (or an unparseable body), and a transport exception are each
treated as "not found" (`none`), and in every such case the negative result
is stored in the per-identifier cache, so the identifier is not re-queried
within the run. -/
theorem lookup_failures_return_none_and_cache (env : Env) (c : UpcCache)
    (u : String) (hu : u ≠ "") (hc : List.lookup u c = none)
    (hneg : upcNotFound (env.upcResp u)) :
    (lookup_upc_product_info env c u).1 = none ∧
    List.lookup u (lookup_upc_product_info env c u).2.1 = some none := by
  rcases h2 : env.upcResp u with _ | ⟨s, je, its⟩
  · simp [lookup_upc_product_info, hu, hc, h2, List.lookup]
  · rw [h2] at hneg
    unfold upcNotFound at hneg
    by_cases hs : s = 200
    · subst hs
      rcases hneg with h | h | h
      · exact absurd rfl h
      · subst h
        simp [lookup_upc_product_info, hu, hc, h2, List.lookup]
      · subst h
        cases je <;> simp [lookup_upc_product_info, hu, hc, h2, List.lookup]
    · simp [lookup_upc_product_info, hu, hc, h2, hs, List.lookup]

theorem lookup_failures_return_none_and_cache_witness :
    ("42" ≠ "" ∧ List.lookup "42" ([] : UpcCache) = none ∧
      upcNotFound (envExn.upcResp "42")) ∧
    (lookup_upc_product_info envExn [] "42").1 = none ∧
    List.lookup "42" (lookup_upc_product_info envExn [] "42").2.1 = some none :=
  ⟨⟨by decide, rfl, trivial⟩,
    lookup_failures_return_none_and_cache envExn [] "42" (by decide) rfl trivial⟩

/-- Claim C5: for every retail price `r ≤ 0` the discount is `0` and the
category is `NoPriceFound`, for any supplier price and any discount value;
for `r > 0` the category thresholds hold: discount `75 → GoodPrice`,
`74.9 → OkayPrice`, `60 → OkayPrice`, `59.9 → BadPrice`.  Both functions are
total Lean functions: pure, no error conditions. -/
theorem discount_categorize_thresholds (x r d : ℚ) :
    (r ≤ 0 → calculate_discount_percentage x r = 0 ∧
      categorize_price d r = PriceCategory.noPriceFound) ∧
    (0 < r → categorize_price 75 r = PriceCategory.goodPrice ∧
      categorize_price (749 / 10) r = PriceCategory.okayPrice ∧
      categorize_price 60 r = PriceCategory.okayPrice ∧
      categorize_price (599 / 10) r = PriceCategory.badPrice) := by
  constructor
  · intro hr
    exact ⟨by simp [calculate_discount_percentage, hr],
           by simp [categorize_price, hr]⟩
  · intro hr
    have hr' : ¬ r ≤ 0 := not_le.mpr hr
    refine ⟨?_, ?_, ?_, ?_⟩ <;> norm_num [categorize_price, hr']

theorem discount_categorize_thresholds_witness :
    ((-1 : ℚ) ≤ 0 ∧ calculate_discount_percentage 5 (-1) = 0 ∧
      categorize_price 99 (-1) = PriceCategory.noPriceFound) ∧
    ((0 : ℚ) < 1 ∧ categorize_price 75 1 = PriceCategory.goodPrice ∧
      categorize_price (749 / 10) 1 = PriceCategory.okayPrice ∧
      categorize_price 60 1 = PriceCategory.okayPrice ∧
      categorize_price (599 / 10) 1 = PriceCategory.badPrice) :=
  ⟨⟨by norm_num, (discount_categorize_thresholds 5 (-1) 99).1 (by norm_num)⟩,
   ⟨by norm_num, (discount_categorize_thresholds 5 1 99).2 (by norm_num)⟩⟩

/-- Claim C6 fails as stated: the normalizer passes a leading minus sign
through to `float`, so `normalize_price("-1") = -1 < 0`. -/
theorem clean_price_negative_counterexample :
    clean_price (some "-1") = -1 ∧ clean_price (some "-1") < 0 := by decide

/-- Claim C6 (amended): for every supplier price string without a '-'
character the normalizer returns a value `≥ 0` (the unmodelled special
literals `nan`/`inf` aside); `normalize_price("$12,345.67") = 12345.67`;
empty, absent, or unparseable input yields the `0.0` sentinel, not an
error. -/
theorem clean_price_spec (s : String) :
    ('-' ∉ s.data → 0 ≤ clean_price (some s)) ∧
    clean_price (some "$12,345.67") = mkRat 1234567 100 ∧
    clean_price none = 0 ∧ clean_price (some "") = 0 ∧
    (pyFloat (stripMoney s) = none → clean_price (some s) = 0) := by
  refine ⟨?_, by decide, rfl, by decide, ?_⟩
  · intro hm
    simp only [clean_price]
    by_cases hs : s = ""
    · rw [if_pos hs]
    · rw [if_neg hs]
      split
      next q hq =>
        refine pyFloat_nonneg _ _ ?_ hq
        intro hmem
        have h2 : '-' ∈ s.data.filter (fun c => c ≠ '$' ∧ c ≠ ',') := hmem
        exact hm (List.mem_filter.mp h2).1
      next => exact le_refl 0
  · intro hp
    simp only [clean_price]
    by_cases hs : s = ""
    · rw [if_pos hs]
    · rw [if_neg hs]
      simp [hp]

theorem clean_price_spec_witness :
    ('-' ∉ "abc".data ∧ 0 ≤ clean_price (some "abc")) ∧
    (pyFloat (stripMoney "abc") = none ∧ clean_price (some "abc") = 0) :=
  ⟨⟨by decide, (clean_price_spec "abc").1 (by decide)⟩,
   ⟨by decide, (clean_price_spec "abc").2.2.2.2 (by decide)⟩⟩

/-- Claim C7 (code bug): `upc.rstrip('.0')` strips every trailing '.' or '0'
character (character-set semantics), not just one ".0" suffix: the float
artifact "100.0" collapses to "1" instead of "100", and the suffix-free code
"8000" becomes "8" instead of staying unchanged.  The spec's example
"0001.0" → "0001" happens to be unaffected. -/
theorem normalize_upc_rstrip_bug :
    normalize_item_upc (some "100.0") = some "1" ∧
    normalize_item_upc (some "8000") = some "8" ∧
    normalize_item_upc (some "0001.0") = some "0001" := by decide

/-- Claim C8 fails as stated: on the successful path (200 with items) the
function returns before the `time.sleep(0.1)` statement, so no delay is
applied; the trace of a successful call is exactly one network call. -/
theorem upc_sleep_missing_on_success_counterexample :
    (lookup_upc_product_info envFound [] "42").1 = some infoWalmart ∧
    (lookup_upc_product_info envFound [] "42").2.2 = [Eff.upcCall] := by decide

/-- Claim C8 (amended): the fixed inter-call delay is applied only on the
fallthrough paths inside the `try` block — a non-200 response, or a 200
response with parseable body and no items; the successful return and the
exception paths (transport or parse) return without sleeping. -/
theorem upc_sleep_only_on_fallthrough (env : Env) (c : UpcCache) (u : String)
    (hu : u ≠ "") (hc : List.lookup u c = none) :
    (∀ i its, env.upcResp u = UpcResponse.resp 200 false (i :: its) →
      (lookup_upc_product_info env c u).2.2 = [Eff.upcCall]) ∧
    (∀ s je its, env.upcResp u = UpcResponse.resp s je its → s ≠ 200 →
      (lookup_upc_product_info env c u).2.2 = [Eff.upcCall, Eff.sleep upcSleep]) ∧
    (env.upcResp u = UpcResponse.resp 200 false [] →
      (lookup_upc_product_info env c u).2.2 = [Eff.upcCall, Eff.sleep upcSleep]) ∧
    (∀ its, env.upcResp u = UpcResponse.resp 200 true its →
      (lookup_upc_product_info env c u).2.2 = [Eff.upcCall]) ∧
    (env.upcResp u = UpcResponse.exn →
      (lookup_upc_product_info env c u).2.2 = [Eff.upcCall]) := by
  refine ⟨?_, ?_, ?_, ?_, ?_⟩
  · intro i its h
    simp [lookup_upc_product_info, hu, hc, h]
  · intro s je its h hs
    simp [lookup_upc_product_info, hu, hc, h, hs]
  · intro h
    simp [lookup_upc_product_info, hu, hc, h]
  · intro its h
    simp [lookup_upc_product_info, hu, hc, h]
  · intro h
    simp [lookup_upc_product_info, hu, hc, h]

theorem upc_sleep_only_on_fallthrough_witness :
    ("42" ≠ "" ∧ List.lookup "42" ([] : UpcCache) = none) ∧
    (lookup_upc_product_info envMiss [] "42").2.2 =
      [Eff.upcCall, Eff.sleep upcSleep] :=
  ⟨⟨by decide, rfl⟩,
    (upc_sleep_only_on_fallthrough envMiss [] "42" (by decide) rfl).2.1
      404 false [] rfl (by decide)⟩

/-- Claim C10: for every description that is empty or whitespace-only,
`search_product_price` returns `(0.0, "")` immediately: the state (and so
the cache) is untouched and the effect trace is empty — no rate-limit
delay, no network call. -/
theorem empty_description_early_return (env : Env) (auth : Bool)
    (st : SearchState) (s : String) (h : pyStrip s = "") :
    search_product_price env auth st s = (((0 : ℚ), ""), st, []) := by
  unfold search_product_price
  rw [if_pos (Or.inr h)]

theorem empty_description_early_return_witness :
    pyStrip "  " = "" ∧
    search_product_price envMiss true searchState0 "  " =
      (((0 : ℚ), ""), searchState0, []) :=
  ⟨by decide, empty_description_early_return envMiss true searchState0 "  " (by decide)⟩

/-- Claim C4: idempotent caching.  For the code-lookup client, a second
invocation on the same identifier returns exactly the first invocation's
result (positive or negative), leaves the cache unchanged, and performs no
effect at all.  For the fuzzy search (auth present), the first invocation
caches its result — positive or negative — under the cleaned-text key, and a
second invocation returns exactly that cached result, leaves the cache
unchanged, and issues no network call. -/
theorem cache_idempotence (env : Env) (c : UpcCache) (u : String)
    (st : SearchState) (name : String) :
    (lookup_upc_product_info env (lookup_upc_product_info env c u).2.1 u =
      ((lookup_upc_product_info env c u).1,
       (lookup_upc_product_info env c u).2.1, [])) ∧
    (List.lookup ("walmart_" ++ clean_product_name name)
        (search_walmart_products env true st name).2.1.searchCache =
      some (search_walmart_products env true st name).1) ∧
    ((search_walmart_products env true
        (search_walmart_products env true st name).2.1 name).1 =
      (search_walmart_products env true st name).1) ∧
    ((search_walmart_products env true
        (search_walmart_products env true st name).2.1 name).2.1.searchCache =
      (search_walmart_products env true st name).2.1.searchCache) ∧
    ((search_walmart_products env true
        (search_walmart_products env true st name).2.1 name).2.2.all
      (fun e => e != Eff.searchCall) = true) := by
  refine ⟨lookup_upc_second env c u, search_caches_result env st name, ?_, ?_, ?_⟩
  · rw [search_cache_hit env _ name _ (search_caches_result env st name)]
  · rw [search_cache_hit env _ name _ (search_caches_result env st name)]
  · rw [search_cache_hit env _ name _ (search_caches_result env st name)]
    simp only
    split
    · simp
    · simp

/-- Claim C2 fails as stated: both candidates score 1.0 against query "A B"
(the intersection is divided by the query word-set size, so "A B C" scores
2/2 = 1, not 0.67); identical top scores keep the first-encountered
candidate, so "A B C" with price 1 is chosen, not "A B" with price 2. -/
theorem fuzzy_tiebreak_counterexample :
    overlapScore ["a", "b"] "a b c" = 1 ∧
    overlapScore ["a", "b"] "a b" = 1 ∧
    (search_walmart_products envTie true searchState0 "A B").1 =
      (1, "https://walmart.com/ip/101") := by decide

/-- Claim C2 (amended): each candidate with a positive price is scored as
`|word-set intersection of query and candidate name| / max(|query word set|, 1)`;
scanning in service order, only a strictly greater score replaces the current
best, so among two candidates whose first's score clears the 0.3 threshold
and is greater than or equal to the second's, the first is chosen — in the
spec's example both score 1.0 and `("A B C", price 1)` wins. -/
theorem fuzzy_tiebreak_first_of_equal_scores (qw : List String)
    (i j : SearchItem)
    (hpi : 0 < i.salePrice.getD 0) (hpj : 0 < j.salePrice.getD 0)
    (hsi : scoreThreshold < overlapScore qw (String.mk (pyLower i.name.data)))
    (hij : overlapScore qw (String.mk (pyLower j.name.data)) ≤
      overlapScore qw (String.mk (pyLower i.name.data))) :
    bestLoop qw [i, j] none 0 = some (i.salePrice.getD 0, itemUrl i.itemId) := by
  have h0 : (0 : ℚ) < overlapScore qw (String.mk (pyLower i.name.data)) :=
    lt_trans (by decide) hsi
  simp only [bestLoop]
  rw [if_pos hpi, if_pos ⟨h0, hsi⟩, if_pos hpj,
    if_neg (fun hcon => absurd hcon.1 (not_lt.mpr hij))]

theorem fuzzy_tiebreak_first_of_equal_scores_witness :
    (0 < itemABC.salePrice.getD 0 ∧ 0 < itemAB.salePrice.getD 0 ∧
      scoreThreshold < overlapScore ["a", "b"] (String.mk (pyLower itemABC.name.data)) ∧
      overlapScore ["a", "b"] (String.mk (pyLower itemAB.name.data)) ≤
        overlapScore ["a", "b"] (String.mk (pyLower itemABC.name.data))) ∧
    bestLoop ["a", "b"] [itemABC, itemAB] none 0 =
      some (itemABC.salePrice.getD 0, itemUrl itemABC.itemId) :=
  ⟨⟨by decide, by decide, by decide, by decide⟩,
    fuzzy_tiebreak_first_of_equal_scores ["a", "b"] itemABC itemAB
      (by decide) (by decide) (by decide) (by decide)⟩

/-- Claim C9: every `(price, url)` pair returned by the pipeline resolve
operation, for any inputs and any collaborator responses, has `price ≥ 0`,
and `price = 0` exactly when no source yielded a usable price (the
instrumented source kind is `Source.none`). -/
theorem resolve_price_nonneg_iff_source (env : Env) (st : PipeState)
    (name : String) (upc : Option String) :
    0 ≤ (get_retail_price env st name upc).1.1 ∧
    ((get_retail_price env st name upc).1.1 = 0 ↔
      (get_retail_price env st name upc).1.2.2 = Source.none) := by
  rcases upc with _ | u
  · simp [get_retail_price]
  · by_cases hu : u = ""
    · simp [get_retail_price, hu]
    · simp only [get_retail_price, if_neg hu]
      rcases hw : pickWalmartOffer u
          (offersOf (lookup_upc_product_info env st.upcCache u).1) with _ | pu
      · rcases ha : pickAnyOffer
            (offersOf (lookup_upc_product_info env st.upcCache u).1) with _ | pu
        · rcases hd : (directLookup env u).1 with _ | pu
          · rcases hpi : (lookup_upc_product_info env st.upcCache u).1 with _ | info
            · simp only [hw, ha, hd, hpi, Option.isNone_none, if_true,
                lookup_upc_second env st.upcCache u, hpi, offersOf,
                pickWalmartLink, pickAnyLink]
              by_cases hf : 0 < (search_product_price env env.hasWalmartApi
                  st.search name).1.1
              · rw [if_pos hf]
                exact ⟨le_of_lt hf,
                  ⟨fun h => absurd h (ne_of_gt hf), fun h => absurd h (by simp)⟩⟩
              · rw [if_neg hf]
                simp
            · simp only [hw, ha, hd, hpi, Option.isNone_some, Bool.false_eq_true,
                if_false]
              rcases hwl : pickWalmartLink (offersOf (some info)) with _ | l
              · rcases hal : pickAnyLink (offersOf (some info)) with _ | l
                · simp only [hwl, hal]
                  by_cases hf : 0 < (search_product_price env env.hasWalmartApi
                      st.search name).1.1
                  · rw [if_pos hf]
                    exact ⟨le_of_lt hf,
                      ⟨fun h => absurd h (ne_of_gt hf), fun h => absurd h (by simp)⟩⟩
                  · rw [if_neg hf]
                    simp
                · simp only [hwl, hal]
                  simp
              · simp only [hwl]
                simp
          · simp only [hw, ha, hd]
            have hpos := directLookup_pos env u pu hd
            exact ⟨le_of_lt hpos,
              ⟨fun h => absurd h (ne_of_gt hpos), fun h => absurd h (by simp)⟩⟩
        · simp only [hw, ha]
          have hpos := pickAnyOffer_pos _ pu ha
          exact ⟨le_of_lt hpos,
            ⟨fun h => absurd h (ne_of_gt hpos), fun h => absurd h (by simp)⟩⟩
      · simp only [hw]
        have hpos := pickWalmartOffer_pos u _ pu hw
        exact ⟨le_of_lt hpos,
          ⟨fun h => absurd h (ne_of_gt hpos), fun h => absurd h (by simp)⟩⟩

/-- Claim C1 fails as stated: with no identifier the pipeline returns
`(0.0, "")` immediately — state unchanged and effect trace empty, so neither
the partial-link step nor the fuzzy search is attempted — even though the
fuzzy search on this very description would have produced a positive
price. -/
theorem no_identifier_skips_fuzzy_counterexample :
    0 < (search_product_price envTie envTie.hasWalmartApi searchState0 "A B").1.1 ∧
    get_retail_price envTie pipeState0 "A B" none =
      (((0 : ℚ), "", Source.none), pipeState0, []) := by decide

/-- Claim C1 (amended): when no identifier is supplied (or it is empty) the
pipeline returns `(0.0, "")` immediately, without the partial-link step and
without the fuzzy search; when an identifier is present and the
identifier-based steps (priced code-lookup offers, direct retailer lookup)
and the partial-link loops all fail, the fuzzy search is performed as the
final attempt and decides the outcome: its positive result is returned,
otherwise `(0.0, "")`. -/
theorem fuzzy_is_final_attempt (env : Env) (st : PipeState) (name u : String)
    (hu : u ≠ "")
    (h1 : pickWalmartOffer u
      (offersOf (lookup_upc_product_info env st.upcCache u).1) = none)
    (h2 : pickAnyOffer
      (offersOf (lookup_upc_product_info env st.upcCache u).1) = none)
    (h3 : (directLookup env u).1 = none)
    (h4 : pickWalmartLink
      (offersOf (lookup_upc_product_info env st.upcCache u).1) = none)
    (h5 : pickAnyLink
      (offersOf (lookup_upc_product_info env st.upcCache u).1) = none) :
    (∀ (st' : PipeState) (nm : String) (upc0 : Option String),
      (upc0 = none ∨ upc0 = some "") →
      get_retail_price env st' nm upc0 = (((0 : ℚ), "", Source.none), st', [])) ∧
    (get_retail_price env st name (some u)).1 =
      (if 0 < (search_product_price env env.hasWalmartApi st.search name).1.1 then
        ((search_product_price env env.hasWalmartApi st.search name).1.1,
          (search_product_price env env.hasWalmartApi st.search name).1.2,
          Source.retailerSearch)
      else ((0 : ℚ), "", Source.none)) := by
  constructor
  · intro st' nm upc0 h0
    rcases h0 with h0 | h0 <;> subst h0 <;> simp [get_retail_price]
  · simp only [get_retail_price, if_neg hu, h1, h2, h3]
    rcases hpi : (lookup_upc_product_info env st.upcCache u).1 with _ | info
    · simp only [hpi, Option.isNone_none, if_true,
        lookup_upc_second env st.upcCache u, hpi, offersOf,
        pickWalmartLink, pickAnyLink]
      by_cases hf : 0 < (search_product_price env env.hasWalmartApi
          st.search name).1.1
      · rw [if_pos hf, if_pos hf]
      · rw [if_neg hf, if_neg hf]
    · rw [hpi] at h4 h5
      simp only [hpi, Option.isNone_some, Bool.false_eq_true, if_false, h4, h5]
      by_cases hf : 0 < (search_product_price env env.hasWalmartApi
          st.search name).1.1
      · rw [if_pos hf, if_pos hf]
      · rw [if_neg hf, if_neg hf]

theorem fuzzy_is_final_attempt_witness :
    ("42" ≠ "" ∧
      pickWalmartOffer "42"
        (offersOf (lookup_upc_product_info envFuzzyOnly pipeState0.upcCache "42").1) = none ∧
      pickAnyOffer
        (offersOf (lookup_upc_product_info envFuzzyOnly pipeState0.upcCache "42").1) = none ∧
      (directLookup envFuzzyOnly "42").1 = none ∧
      pickWalmartLink
        (offersOf (lookup_upc_product_info envFuzzyOnly pipeState0.upcCache "42").1) = none ∧
      pickAnyLink
        (offersOf (lookup_upc_product_info envFuzzyOnly pipeState0.upcCache "42").1) = none) ∧
    (get_retail_price envFuzzyOnly pipeState0 "A B" (some "42")).1 =
      (if 0 < (search_product_price envFuzzyOnly envFuzzyOnly.hasWalmartApi
          pipeState0.search "A B").1.1 then
        ((search_product_price envFuzzyOnly envFuzzyOnly.hasWalmartApi
            pipeState0.search "A B").1.1,
          (search_product_price envFuzzyOnly envFuzzyOnly.hasWalmartApi
            pipeState0.search "A B").1.2,
          Source.retailerSearch)
      else ((0 : ℚ), "", Source.none)) :=
  ⟨⟨by decide, by decide, by decide, by decide, by decide, by decide⟩,
    (fuzzy_is_final_attempt envFuzzyOnly pipeState0 "A B" "42"
      (by decide) (by decide) (by decide) (by decide) (by decide) (by decide)).2⟩
